import Mathlib

/-!
Shallow embedding of `src/python/lanes/core.py` (osm2lanes): lane tag parsing.

The Python module defines three enumerations (`DrivingSide`, `Direction`,
`LaneType`), a `Lane` value type with a structured constructor
`Lane.from_structure`, and a `Road` aggregate whose `parse` method infers the
left-to-right lane cross-section from an OSM tag mapping.

Python `dict[str, str]` is modelled as an association list with first-match
lookup (keys are unique in a Python dict, so first-match agrees with dict
semantics).  Python's `int(str)` conversion is modelled by `pyInt`, including
optional surrounding whitespace, an optional sign, and underscores between
digits; a failed conversion (Python `ValueError`, named `InvalidLaneCount` by
the design) is an `Except.error`.  Python list repetition `[x] * n` yields the
empty list for negative `n`, modelled by `List.replicate n.toNat`.
-/

set_option autoImplicit false

namespace Osm2Lanes

/-- Bidirectional traffic practice (`DrivingSide` in core.py). -/
inductive DrivingSide where
  | RIGHT
  | LEFT
deriving DecidableEq, Repr

/-- Lane direction relative to way direction (`Direction` in core.py). -/
inductive Direction where
  | FORWARD
  | BACKWARD
deriving DecidableEq, Repr

/-- Lane designation (`LaneType` in core.py). -/
inductive LaneType where
  | SIDEWALK
  | CYCLEWAY
  | DRIVEWAY
deriving DecidableEq, Repr

/-- Lane specification (`Lane` dataclass in core.py): a type and a direction.
Dataclass equality is field-wise equality. -/
structure Lane where
  type_ : LaneType
  direction : Direction
deriving DecidableEq, Repr

/-- `Tags = dict[str, str]` in core.py, modelled as an association list. -/
abbrev Tags := List (String × String)

/-- Python dict lookup: first (unique) matching key, `none` when absent.
Models `d[k]` (which raises `KeyError` on `none`), `d.get(k)` (which returns
`None`), and `k in d` (via `Option.isSome`). -/
def tagsGet : Tags → String → Option String
  | [], _ => none
  | (k, v) :: rest, key => if k = key then some v else tagsGet rest key

/-- `LaneType(text)`: the Python `Enum` call, `none` for an unrecognized value
(Python raises `ValueError`, the design's `InvalidTagValue`). -/
def laneTypeOfString (s : String) : Option LaneType :=
  if s = "sidewalk" then some .SIDEWALK
  else if s = "cycleway" then some .CYCLEWAY
  else if s = "driveway" then some .DRIVEWAY
  else none

/-- `Direction(text)`: the Python `Enum` call, `none` for an unrecognized
value. -/
def directionOfString (s : String) : Option Direction :=
  if s = "forward" then some .FORWARD
  else if s = "backward" then some .BACKWARD
  else none

/-- Errors `Lane.from_structure` can raise: Python `ValueError` from an `Enum`
call on an unrecognized text (the design's `InvalidTagValue`), or Python
`KeyError` from `structure[key]` on a missing key. -/
inductive LaneErr where
  | InvalidTagValue
  | KeyError (key : String)
deriving DecidableEq, Repr

/-- `Lane.from_structure(structure)`:
`cls(LaneType(structure["type"]), Direction(structure["direction"]))`.
Python evaluates arguments left to right: the `"type"` lookup and `LaneType`
call happen before the `"direction"` lookup and `Direction` call, so the first
failure in that order is the one raised. -/
def Lane.from_structure (s : Tags) : Except LaneErr Lane :=
  match tagsGet s "type" with
  | none => .error (.KeyError "type")
  | some typeText =>
    match laneTypeOfString typeText with
    | none => .error .InvalidTagValue
    | some lt =>
      match tagsGet s "direction" with
      | none => .error (.KeyError "direction")
      | some directionText =>
        match directionOfString directionText with
        | none => .error .InvalidTagValue
        | some d => .ok ⟨lt, d⟩

/-- Continue Python's `int(str)` digit scan after an initial digit has been
consumed: further digits accumulate; a single underscore is allowed only
between digits. -/
def pyDigitsAux : Nat → List Char → Option Nat
  | acc, [] => some acc
  | acc, '_' :: c :: rest =>
    if c.isDigit then pyDigitsAux (acc * 10 + (c.toNat - 48)) rest else none
  | acc, c :: rest =>
    if c.isDigit then pyDigitsAux (acc * 10 + (c.toNat - 48)) rest else none

/-- Python's `int(str)` digit run: at least one decimal digit, underscores
only between digits. -/
def pyDigits : List Char → Option Nat
  | [] => none
  | c :: rest => if c.isDigit then pyDigitsAux (c.toNat - 48) rest else none

/-- `str.strip()` as applied by Python's `int(str)`: drop surrounding
whitespace. -/
def stripChars (cs : List Char) : List Char :=
  (((cs.dropWhile Char.isWhitespace).reverse).dropWhile Char.isWhitespace).reverse

/-- Optional sign before the digit run of Python's `int(str)`. -/
def pySigned : List Char → Option Int
  | '+' :: rest => (pyDigits rest).map Int.ofNat
  | '-' :: rest => (pyDigits rest).map (fun n => -(n : Int))
  | cs => (pyDigits cs).map Int.ofNat

/-- Python `int(s)` for a `str` argument in base 10: strip whitespace, an
optional sign, then a digit run with optional underscores between digits.
`none` models the `ValueError` Python raises on malformed text. -/
def pyInt (s : String) : Option Int :=
  pySigned (stripChars s.toList)

/-- Error `Road.parse` can raise: Python `ValueError` from `int(...)` on a
malformed `lanes` value (the design's `InvalidLaneCount`). -/
inductive ParseError where
  | InvalidLaneCount
deriving DecidableEq, Repr

/-- OpenStreetMap way or relation described road part (`Road` dataclass). -/
structure Road where
  tags : Tags
deriving DecidableEq, Repr

/-- The `main_lanes` computation of `Road.parse`:
`if "lanes" in self.tags:` then `if self.tags.get("oneway") == "yes":` then
`main_lanes = [Lane(DRIVEWAY, FORWARD)] * int(self.tags["lanes"])`.
Python list repetition with a negative count yields the empty list
(`Int.toNat` of a negative is `0`); a malformed count raises. -/
def mainLanes (t : Tags) : Except ParseError (List Lane) :=
  match tagsGet t "lanes" with
  | some lanesVal =>
    if tagsGet t "oneway" = some "yes" then
      match pyInt lanesVal with
      | some n => .ok (List.replicate n.toNat ⟨.DRIVEWAY, .FORWARD⟩)
      | none => .error .InvalidLaneCount
    else .ok []
  | none => .ok []

/-- The `sidewalks_left` computation of `Road.parse`:
one BACKWARD sidewalk lane when `sidewalk == "both"`, else nothing. -/
def sidewalksLeft (t : Tags) : List Lane :=
  if tagsGet t "sidewalk" = some "both" then [⟨.SIDEWALK, .BACKWARD⟩] else []

/-- The `sidewalks_right` computation of `Road.parse`:
one FORWARD sidewalk lane when `sidewalk == "both"`, else nothing. -/
def sidewalksRight (t : Tags) : List Lane :=
  if tagsGet t "sidewalk" = some "both" then [⟨.SIDEWALK, .FORWARD⟩] else []

/-- The `cycleway_left` computation of `Road.parse`:
one FORWARD cycleway lane when `cycleway:left == "lane"`, else nothing. -/
def cyclewayLeft (t : Tags) : List Lane :=
  if tagsGet t "cycleway:left" = some "lane" then [⟨.CYCLEWAY, .FORWARD⟩] else []

/-- The `cycleway_right` list of `Road.parse`: initialized empty and never
assigned by any rule in core.py. -/
def cyclewayRight (_t : Tags) : List Lane := []

/-- `Road.parse`: evaluate the rule groups and return
`sidewalks_left + cycleway_left + main_lanes + cycleway_right +
sidewalks_right`; a `ValueError` from `int(...)` propagates. -/
def Road.parse (r : Road) : Except ParseError (List Lane) :=
  match mainLanes r.tags with
  | .error e => .error e
  | .ok main_lanes =>
    .ok (sidewalksLeft r.tags ++ cyclewayLeft r.tags ++ main_lanes
      ++ cyclewayRight r.tags ++ sidewalksRight r.tags)

/-- The driveway lanes of an output sequence. -/
def drivewayLanes (ls : List Lane) : List Lane :=
  ls.filter (fun l => l.type_ == LaneType.DRIVEWAY)

/-- The sidewalk lanes of an output sequence. -/
def sidewalkLanes (ls : List Lane) : List Lane :=
  ls.filter (fun l => l.type_ == LaneType.SIDEWALK)

/-- The spec's notion in claim C1: the text parses (per Python `int`) as a
non-negative integer. -/
def parsesAsNonNegInt (v : String) : Prop :=
  ∃ n : Int, pyInt v = some n ∧ 0 ≤ n

/-! ### State-passing embedding of `Road.parse`

To state the frame property (the tag mapping is not mutated), `Road.parse` is
re-embedded with every access to the mutable Python dict threaded through an
explicit state: each operation returns its result together with the dict that
the rest of the method sees.  The operations the source performs on
`self.tags` are `"lanes" in`, `.get("oneway")`, `["lanes"]`,
`.get("sidewalk")` and `.get("cycleway:left")`, in that order. -/

/-- `key in d` on the threaded dict state. -/
def tagsContainsSt (key : String) (t : Tags) : Bool × Tags :=
  ((tagsGet t key).isSome, t)

/-- `d.get(key)` on the threaded dict state. -/
def tagsGetOptSt (key : String) (t : Tags) : Option String × Tags :=
  (tagsGet t key, t)

/-- `d[key]` on the threaded dict state; in `Road.parse` this access is
guarded by `key in d`, so the absent-key default is unreachable there. -/
def tagsItemSt (key : String) (t : Tags) : String × Tags :=
  ((tagsGet t key).getD "", t)

/-- The tail of `Road.parse` after `main_lanes` is computed: the sidewalk and
cycleway rules and the final concatenation, on the threaded dict state. -/
def parseStAssemble (t : Tags) (main_lanes : List Lane) :
    Except ParseError (List Lane) × Tags :=
  let p1 := tagsGetOptSt "sidewalk" t
  let sidewalks_left : List Lane :=
    if p1.1 = some "both" then [⟨.SIDEWALK, .BACKWARD⟩] else []
  let sidewalks_right : List Lane :=
    if p1.1 = some "both" then [⟨.SIDEWALK, .FORWARD⟩] else []
  let p2 := tagsGetOptSt "cycleway:left" p1.2
  let cycleway_left : List Lane :=
    if p2.1 = some "lane" then [⟨.CYCLEWAY, .FORWARD⟩] else []
  let cycleway_right : List Lane := []
  (.ok (sidewalks_left ++ cycleway_left ++ main_lanes ++ cycleway_right
    ++ sidewalks_right), p2.2)

/-- `Road.parse` with the tag dict threaded as explicit state; the second
component is the dict as left behind by the call. -/
def Road.parseSt (t : Tags) : Except ParseError (List Lane) × Tags :=
  let p0 := tagsContainsSt "lanes" t
  if p0.1 then
    let p1 := tagsGetOptSt "oneway" p0.2
    if p1.1 = some "yes" then
      let p2 := tagsItemSt "lanes" p1.2
      match pyInt p2.1 with
      | some n => parseStAssemble p2.2 (List.replicate n.toNat ⟨.DRIVEWAY, .FORWARD⟩)
      | none => (.error .InvalidLaneCount, p2.2)
    else parseStAssemble p1.2 []
  else parseStAssemble p0.2 []

/-! ### Helper lemmas -/

/-- `Road.parse` is the per-category assembly mapped over the `main_lanes`
result. -/
theorem parse_assembly (t : Tags) :
    Road.parse ⟨t⟩ = (mainLanes t).map (fun m =>
      sidewalksLeft t ++ cyclewayLeft t ++ m ++ cyclewayRight t
        ++ sidewalksRight t) := by
  unfold Road.parse
  cases mainLanes t <;> rfl

/-- A successful `main_lanes` list is a replication of forward driveway
lanes. -/
theorem mainLanes_ok_shape (t : Tags) (m : List Lane)
    (h : mainLanes t = .ok m) :
    ∃ k, m = List.replicate k (⟨.DRIVEWAY, .FORWARD⟩ : Lane) := by
  unfold mainLanes at h
  split at h
  · split at h
    · split at h
      · exact ⟨_, by injection h with h; exact h.symm⟩
      · cases h
    · exact ⟨0, by injection h with h; exact h.symm⟩
  · exact ⟨0, by injection h with h; exact h.symm⟩

theorem mem_sidewalksLeft {t : Tags} {l : Lane} (h : l ∈ sidewalksLeft t) :
    l = ⟨.SIDEWALK, .BACKWARD⟩ := by
  unfold sidewalksLeft at h
  split at h <;> simp_all

theorem mem_sidewalksRight {t : Tags} {l : Lane} (h : l ∈ sidewalksRight t) :
    l = ⟨.SIDEWALK, .FORWARD⟩ := by
  unfold sidewalksRight at h
  split at h <;> simp_all

theorem mem_cyclewayLeft {t : Tags} {l : Lane} (h : l ∈ cyclewayLeft t) :
    l = ⟨.CYCLEWAY, .FORWARD⟩ := by
  unfold cyclewayLeft at h
  split at h <;> simp_all

theorem drivewayLanes_nil : drivewayLanes [] = [] := rfl

theorem sidewalkLanes_nil : sidewalkLanes [] = [] := rfl

theorem drivewayLanes_append (a b : List Lane) :
    drivewayLanes (a ++ b) = drivewayLanes a ++ drivewayLanes b :=
  List.filter_append ..

theorem sidewalkLanes_append (a b : List Lane) :
    sidewalkLanes (a ++ b) = sidewalkLanes a ++ sidewalkLanes b :=
  List.filter_append ..

theorem drivewayLanes_sidewalksLeft (t : Tags) :
    drivewayLanes (sidewalksLeft t) = [] := by
  unfold sidewalksLeft; split <;> rfl

theorem drivewayLanes_sidewalksRight (t : Tags) :
    drivewayLanes (sidewalksRight t) = [] := by
  unfold sidewalksRight; split <;> rfl

theorem drivewayLanes_cyclewayLeft (t : Tags) :
    drivewayLanes (cyclewayLeft t) = [] := by
  unfold cyclewayLeft; split <;> rfl

theorem drivewayLanes_replicate (k : Nat) :
    drivewayLanes (List.replicate k ⟨.DRIVEWAY, .FORWARD⟩) =
      List.replicate k (⟨.DRIVEWAY, .FORWARD⟩ : Lane) := by
  simp [drivewayLanes, List.filter_replicate]

theorem sidewalkLanes_cyclewayLeft (t : Tags) :
    sidewalkLanes (cyclewayLeft t) = [] := by
  unfold cyclewayLeft; split <;> rfl

theorem sidewalkLanes_replicate (k : Nat) :
    sidewalkLanes (List.replicate k ⟨.DRIVEWAY, .FORWARD⟩) = [] := by
  simp [sidewalkLanes, List.filter_replicate]

theorem sidewalkLanes_backward_single :
    sidewalkLanes [⟨.SIDEWALK, .BACKWARD⟩] = [⟨.SIDEWALK, .BACKWARD⟩] := rfl

theorem sidewalkLanes_forward_single :
    sidewalkLanes [⟨.SIDEWALK, .FORWARD⟩] = [⟨.SIDEWALK, .FORWARD⟩] := rfl

/-! ### Claim theorems -/

/-- C1 (counterexample): the claim "`Road.parse` raises `InvalidLaneCount` if
and only if `lanes` is present, `oneway` is `"yes"`, and the `lanes` value
cannot be parsed as a *non-negative* integer" is false at
`lanes = "-1"`, `oneway = "yes"`: `"-1"` is not non-negative-integer text, yet
Python's `int("-1")` succeeds and the call returns an empty list instead of
raising. -/
theorem parse_invalidLaneCount_nonneg_cex :
    (tagsGet [("lanes", "-1"), ("oneway", "yes")] "lanes").isSome = true ∧
    tagsGet [("lanes", "-1"), ("oneway", "yes")] "oneway" = some "yes" ∧
    ¬ parsesAsNonNegInt "-1" ∧
    Road.parse ⟨[("lanes", "-1"), ("oneway", "yes")]⟩ = .ok [] := by
  refine ⟨rfl, rfl, ?_, rfl⟩
  rintro ⟨n, h1, h2⟩
  have hv : pyInt "-1" = some (-1) := rfl
  rw [hv] at h1
  injection h1 with h1
  omega

/-- C1 (amended): `Road.parse` fails with `InvalidLaneCount` if and only if
the `lanes` tag is present, `oneway` equals `"yes"`, and the `lanes` value
cannot be parsed as an integer by Python's `int` (which also accepts signed
values, so negative counts do not raise). -/
theorem parse_invalidLaneCount_iff (t : Tags) :
    Road.parse ⟨t⟩ = .error .InvalidLaneCount ↔
      ((tagsGet t "lanes").isSome = true ∧
        tagsGet t "oneway" = some "yes" ∧
        pyInt ((tagsGet t "lanes").getD "") = none) := by
  rw [parse_assembly]
  unfold mainLanes
  cases htag : tagsGet t "lanes" with
  | none => simp [Except.map]
  | some v =>
    simp only [Option.isSome_some, Option.getD_some, true_and]
    by_cases ho : tagsGet t "oneway" = some "yes"
    · simp only [ho, if_pos]
      cases hn : pyInt v <;> simp [Except.map]
    · simp [ho, Except.map]

/-- C1 (witness): for `lanes = "abc"`, `oneway = "yes"` the call fails with
`InvalidLaneCount` rather than returning an empty or zero-length sequence. -/
theorem parse_invalidLaneCount_iff_witness :
    Road.parse ⟨[("lanes", "abc"), ("oneway", "yes")]⟩ =
      .error .InvalidLaneCount :=
  (parse_invalidLaneCount_iff [("lanes", "abc"), ("oneway", "yes")]).mpr
    ⟨rfl, rfl, rfl⟩

/-- C2: the output of `Road.parse` is the concatenation, in this fixed order,
of left sidewalk, left cycleway, main driveway lanes, right cycleway and
right sidewalk; in particular `cycleway:left = "lane"`, `lanes = "2"`,
`oneway = "yes"` yields exactly
`[CYCLEWAY/FORWARD, DRIVEWAY/FORWARD, DRIVEWAY/FORWARD]`. -/
theorem parse_assembly_order :
    (∀ t : Tags, Road.parse ⟨t⟩ = (mainLanes t).map (fun m =>
      sidewalksLeft t ++ cyclewayLeft t ++ m ++ cyclewayRight t
        ++ sidewalksRight t)) ∧
    Road.parse ⟨[("cycleway:left", "lane"), ("lanes", "2"), ("oneway", "yes")]⟩ =
      .ok [⟨.CYCLEWAY, .FORWARD⟩, ⟨.DRIVEWAY, .FORWARD⟩, ⟨.DRIVEWAY, .FORWARD⟩] :=
  ⟨parse_assembly, rfl⟩

/-- C3 (counterexample): the claim "when the `lanes` value parses as integer
`n` (with `oneway = "yes"`), the output has exactly `n` driveway lanes" is
false at `lanes = "-1"`: the value parses as `-1`, but the output has `0`
driveway lanes (Python list repetition with a negative count is empty). -/
theorem parse_driveway_count_cex :
    pyInt "-1" = some (-1) ∧
    Road.parse ⟨[("lanes", "-1"), ("oneway", "yes")]⟩ = .ok [] ∧
    (0 : Int) ≠ -1 :=
  ⟨rfl, rfl, by omega⟩

/-- C3 (amended): when `lanes` is present with a value parsing as integer `n`
and `oneway = "yes"`, the output's driveway lanes are exactly
`max n 0` copies of `DRIVEWAY/FORWARD` (so exactly `n` of them, all FORWARD,
whenever `n ≥ 0`; a negative `n` yields none); in particular, for
`lanes = "3"`, `oneway = "yes"` and no other recognized tags, the output is
exactly three `DRIVEWAY/FORWARD` lanes — and no other lane types. -/
theorem parse_driveway_count :
    (∀ (t : Tags) (v : String) (n : Int),
      tagsGet t "lanes" = some v →
      tagsGet t "oneway" = some "yes" →
      pyInt v = some n →
      Except.map drivewayLanes (Road.parse ⟨t⟩) =
        .ok (List.replicate n.toNat ⟨.DRIVEWAY, .FORWARD⟩)) ∧
    Road.parse ⟨[("lanes", "3"), ("oneway", "yes")]⟩ =
      .ok [⟨.DRIVEWAY, .FORWARD⟩, ⟨.DRIVEWAY, .FORWARD⟩,
        ⟨.DRIVEWAY, .FORWARD⟩] := by
  refine ⟨?_, rfl⟩
  intro t v n hv ho hn
  rw [parse_assembly]
  unfold mainLanes
  rw [hv]
  simp only [if_pos ho, hn]
  simp [Except.map, drivewayLanes_append, drivewayLanes_sidewalksLeft,
    drivewayLanes_sidewalksRight, drivewayLanes_cyclewayLeft,
    drivewayLanes_replicate, cyclewayRight, drivewayLanes_nil]

/-- C3 (witness): the universal part instantiated at `lanes = "4"`,
`oneway = "yes"`: exactly 4 driveway lanes, each FORWARD. -/
theorem parse_driveway_count_witness :
    Except.map drivewayLanes (Road.parse ⟨[("lanes", "4"), ("oneway", "yes")]⟩) =
      .ok (List.replicate (Int.toNat 4) ⟨.DRIVEWAY, .FORWARD⟩) :=
  parse_driveway_count.1 [("lanes", "4"), ("oneway", "yes")] "4" 4 rfl rfl rfl

/-- C4: on every successful parse, sidewalk lanes appear exactly when the
`sidewalk` tag equals `"both"`, in which case the output starts with the one
BACKWARD sidewalk lane and ends with the one FORWARD sidewalk lane, and those
two are the only sidewalk lanes; any other value, or absence, yields no
sidewalk lanes. -/
theorem parse_sidewalk_rule (t : Tags) (ls : List Lane)
    (h : Road.parse ⟨t⟩ = .ok ls) :
    (tagsGet t "sidewalk" = some "both" →
      ls.head? = some ⟨.SIDEWALK, .BACKWARD⟩ ∧
      ls.getLast? = some ⟨.SIDEWALK, .FORWARD⟩ ∧
      sidewalkLanes ls = [⟨.SIDEWALK, .BACKWARD⟩, ⟨.SIDEWALK, .FORWARD⟩]) ∧
    (tagsGet t "sidewalk" ≠ some "both" → sidewalkLanes ls = []) := by
  rw [parse_assembly] at h
  cases hm : mainLanes t with
  | error e => rw [hm] at h; cases h
  | ok m =>
    rw [hm] at h
    injection h with h
    obtain ⟨k, rfl⟩ := mainLanes_ok_shape t m hm
    subst h
    constructor
    · intro hsw
      unfold sidewalksLeft sidewalksRight
      rw [if_pos hsw, if_pos hsw]
      refine ⟨rfl, List.getLast?_concat _, ?_⟩
      simp only [sidewalkLanes_append, sidewalkLanes_cyclewayLeft,
        sidewalkLanes_replicate, cyclewayRight, sidewalkLanes_nil,
        sidewalkLanes_backward_single, sidewalkLanes_forward_single]
      rfl
    · intro hsw
      unfold sidewalksLeft sidewalksRight
      rw [if_neg hsw, if_neg hsw]
      simp [sidewalkLanes_append, sidewalkLanes_cyclewayLeft,
        sidewalkLanes_replicate, cyclewayRight, sidewalkLanes_nil]

/-- C4 (witness): for `sidewalk = "both"` alone, the output is exactly
`[SIDEWALK/BACKWARD, SIDEWALK/FORWARD]`, first and last as claimed. -/
theorem parse_sidewalk_rule_witness :
    ([⟨.SIDEWALK, .BACKWARD⟩, ⟨.SIDEWALK, .FORWARD⟩] : List Lane).head? =
        some ⟨.SIDEWALK, .BACKWARD⟩ ∧
      ([⟨.SIDEWALK, .BACKWARD⟩, ⟨.SIDEWALK, .FORWARD⟩] : List Lane).getLast? =
        some ⟨.SIDEWALK, .FORWARD⟩ ∧
      sidewalkLanes [⟨.SIDEWALK, .BACKWARD⟩, ⟨.SIDEWALK, .FORWARD⟩] =
        [⟨.SIDEWALK, .BACKWARD⟩, ⟨.SIDEWALK, .FORWARD⟩] :=
  (parse_sidewalk_rule [("sidewalk", "both")]
    [⟨.SIDEWALK, .BACKWARD⟩, ⟨.SIDEWALK, .FORWARD⟩] rfl).1 rfl

/-- C5: `Lane.from_structure` on `{"type": t, "direction": d}` yields the
directly constructed lane for every recognized pair, and fails with
`InvalidTagValue` whenever the type text or the direction text is
unrecognized; in particular `{"type": "cycleway", "direction": "forward"}`
round-trips to `Lane(CYCLEWAY, FORWARD)`. -/
theorem from_structure_roundtrip :
    (∀ (typeText directionText : String) (lt : LaneType) (d : Direction),
      laneTypeOfString typeText = some lt →
      directionOfString directionText = some d →
      Lane.from_structure [("type", typeText), ("direction", directionText)] =
        .ok ⟨lt, d⟩) ∧
    (∀ typeText directionText : String,
      laneTypeOfString typeText = none ∨ directionOfString directionText = none →
      Lane.from_structure [("type", typeText), ("direction", directionText)] =
        .error .InvalidTagValue) ∧
    Lane.from_structure [("type", "cycleway"), ("direction", "forward")] =
      .ok ⟨.CYCLEWAY, .FORWARD⟩ := by
  refine ⟨?_, ?_, rfl⟩
  · intro ts ds lt d h1 h2
    simp [Lane.from_structure, tagsGet, h1, h2]
  · intro ts ds h
    rcases h with h | h
    · simp [Lane.from_structure, tagsGet, h]
    · cases h1 : laneTypeOfString ts <;>
        simp [Lane.from_structure, tagsGet, h1, h]

/-- C5 (witness): a recognized pair other than the one already fixed in the
theorem also round-trips. -/
theorem from_structure_roundtrip_witness :
    Lane.from_structure [("type", "sidewalk"), ("direction", "backward")] =
      .ok ⟨.SIDEWALK, .BACKWARD⟩ :=
  from_structure_roundtrip.1 "sidewalk" "backward" .SIDEWALK .BACKWARD rfl rfl

/-- C6: whenever `oneway` is absent or differs from `"yes"`, `Road.parse`
succeeds with zero driveway lanes, whatever the `lanes` value (even
non-integer text); in particular `lanes = "2"` with `oneway` absent yields
zero driveway lanes. -/
theorem parse_not_oneway_no_driveways :
    (∀ t : Tags, tagsGet t "oneway" ≠ some "yes" →
      Except.map drivewayLanes (Road.parse ⟨t⟩) = .ok []) ∧
    Road.parse ⟨[("lanes", "2")]⟩ = .ok [] := by
  refine ⟨?_, rfl⟩
  intro t ho
  rw [parse_assembly]
  have hm : mainLanes t = .ok [] := by
    unfold mainLanes
    cases htag : tagsGet t "lanes" with
    | none => rfl
    | some v => simp [ho]
  rw [hm]
  simp [Except.map, drivewayLanes_append, drivewayLanes_sidewalksLeft,
    drivewayLanes_sidewalksRight, drivewayLanes_cyclewayLeft, cyclewayRight,
    drivewayLanes_nil]

/-- C6 (witness): `lanes = "abc"` (not integer text) with `oneway = "no"`
raises nothing and yields zero driveway lanes. -/
theorem parse_not_oneway_no_driveways_witness :
    Except.map drivewayLanes
      (Road.parse ⟨[("lanes", "abc"), ("oneway", "no"), ("sidewalk", "both")]⟩) =
      .ok [] :=
  parse_not_oneway_no_driveways.1
    [("lanes", "abc"), ("oneway", "no"), ("sidewalk", "both")] (by decide)

/-- C7: `Road.parse` is a pure function of the tag mapping — two roads with
equal tags parse to equal results — and it is idempotent: a second invocation
on the same unmodified road yields the same sequence. -/
theorem parse_pure_function_of_tags (r₁ r₂ : Road) (h : r₁.tags = r₂.tags) :
    r₁.parse = r₂.parse ∧ r₁.parse = r₁.parse := by
  cases r₁
  cases r₂
  cases h
  exact ⟨rfl, rfl⟩

/-- C7 (witness): instantiated on a concrete road. -/
theorem parse_pure_function_of_tags_witness :
    (Road.mk [("sidewalk", "both"), ("lanes", "2"), ("oneway", "yes")]).parse =
      (Road.mk [("sidewalk", "both"), ("lanes", "2"), ("oneway", "yes")]).parse ∧
    (Road.mk [("sidewalk", "both"), ("lanes", "2"), ("oneway", "yes")]).parse =
      (Road.mk [("sidewalk", "both"), ("lanes", "2"), ("oneway", "yes")]).parse :=
  parse_pure_function_of_tags _ _ rfl

/-- C8: `Road.parse` does not mutate its input: in the state-passing
embedding where every dict access threads the tag mapping, the mapping left
behind by the call (whether it returns or raises) is the input mapping, and
the computed result agrees with the pure embedding. -/
theorem parse_no_mutation (t : Tags) :
    (Road.parseSt t).2 = t ∧ (Road.parseSt t).1 = Road.parse ⟨t⟩ := by
  unfold Road.parseSt Road.parse mainLanes parseStAssemble tagsContainsSt
    tagsGetOptSt tagsItemSt sidewalksLeft sidewalksRight cyclewayLeft
    cyclewayRight
  cases htag : tagsGet t "lanes" with
  | none => simp
  | some v =>
    by_cases ho : tagsGet t "oneway" = some "yes"
    · cases hn : pyInt v <;> simp [ho, hn, htag]
    · simp [ho]

/-- C9 (counterexample): the claim "a structure missing the `direction` key
fails with `KeyError`, and `InvalidTagValue` occurs only when both keys are
present" is false at `{"type": "bogus"}`: the `direction` key is absent, yet
the call fails with `InvalidTagValue`, because the type text is validated
before the `direction` key is read. -/
theorem from_structure_key_order_cex :
    tagsGet [("type", "bogus")] "direction" = none ∧
    Lane.from_structure [("type", "bogus")] = .error .InvalidTagValue :=
  ⟨rfl, rfl⟩

/-- C9 (amended): a structure missing the `type` key fails with
`KeyError("type")`; one whose `type` value is recognized but whose
`direction` key is missing fails with `KeyError("direction")`; and
`InvalidTagValue` occurs only when the `type` key is present (an unrecognized
`type` value raises it even if `direction` is absent, since the type text is
validated before the `direction` lookup). -/
theorem from_structure_key_errors (s : Tags) :
    (tagsGet s "type" = none →
      Lane.from_structure s = .error (.KeyError "type")) ∧
    (∀ (typeText : String) (lt : LaneType),
      tagsGet s "type" = some typeText →
      laneTypeOfString typeText = some lt →
      tagsGet s "direction" = none →
      Lane.from_structure s = .error (.KeyError "direction")) ∧
    (Lane.from_structure s = .error .InvalidTagValue →
      (tagsGet s "type").isSome = true) := by
  refine ⟨?_, ?_, ?_⟩
  · intro h
    simp [Lane.from_structure, h]
  · intro ts lt h1 h2 h3
    simp [Lane.from_structure, h1, h2, h3]
  · intro h
    cases ht : tagsGet s "type" with
    | none => simp [Lane.from_structure, ht] at h
    | some _ => rfl

/-- C9 (witness): a structure missing the `type` key fails with
`KeyError("type")`. -/
theorem from_structure_key_errors_witness :
    Lane.from_structure [("direction", "forward")] = .error (.KeyError "type") :=
  (from_structure_key_errors [("direction", "forward")]).1 rfl

/-- C10: on every successful parse, every BACKWARD lane in the output is a
sidewalk, every cycleway or driveway lane is FORWARD, and the right-cycleway
category contributes nothing (it is always the empty list). -/
theorem parse_direction_invariants (t : Tags) (ls : List Lane)
    (h : Road.parse ⟨t⟩ = .ok ls) :
    (∀ l ∈ ls, l.direction = .BACKWARD → l.type_ = .SIDEWALK) ∧
    (∀ l ∈ ls, (l.type_ = .CYCLEWAY ∨ l.type_ = .DRIVEWAY) →
      l.direction = .FORWARD) ∧
    cyclewayRight t = [] := by
  rw [parse_assembly] at h
  cases hm : mainLanes t with
  | error e => rw [hm] at h; cases h
  | ok m =>
    rw [hm] at h
    injection h with h
    obtain ⟨k, rfl⟩ := mainLanes_ok_shape t m hm
    subst h
    have hmem : ∀ l : Lane,
        l ∈ sidewalksLeft t ++ cyclewayLeft t
            ++ List.replicate k (⟨.DRIVEWAY, .FORWARD⟩ : Lane)
            ++ cyclewayRight t ++ sidewalksRight t →
        l = ⟨.SIDEWALK, .BACKWARD⟩ ∨ l = ⟨.SIDEWALK, .FORWARD⟩ ∨
        l = ⟨.CYCLEWAY, .FORWARD⟩ ∨ l = ⟨.DRIVEWAY, .FORWARD⟩ := by
      intro l hl
      simp only [List.mem_append, cyclewayRight, List.not_mem_nil,
        or_false] at hl
      rcases hl with ((hl | hl) | hl) | hl
      · exact .inl (mem_sidewalksLeft hl)
      · exact .inr (.inr (.inl (mem_cyclewayLeft hl)))
      · exact .inr (.inr (.inr (List.eq_of_mem_replicate hl)))
      · exact .inr (.inl (mem_sidewalksRight hl))
    refine ⟨?_, ?_, rfl⟩
    · intro l hl hdir
      rcases hmem l hl with rfl | rfl | rfl | rfl <;> first | rfl | cases hdir
    · intro l hl htype
      rcases hmem l hl with rfl | rfl | rfl | rfl <;>
        first | rfl | rcases htype with h | h <;> cases h

/-- C10 (witness): a parse exercising every rule group, with the inert
right-cycleway conclusion extracted from the invariant theorem. -/
theorem parse_direction_invariants_witness :
    Road.parse ⟨[("lanes", "2"), ("oneway", "yes"), ("sidewalk", "both"),
        ("cycleway:left", "lane")]⟩ =
      .ok [⟨.SIDEWALK, .BACKWARD⟩, ⟨.CYCLEWAY, .FORWARD⟩,
        ⟨.DRIVEWAY, .FORWARD⟩, ⟨.DRIVEWAY, .FORWARD⟩,
        ⟨.SIDEWALK, .FORWARD⟩] ∧
    cyclewayRight [("lanes", "2"), ("oneway", "yes"), ("sidewalk", "both"),
        ("cycleway:left", "lane")] = [] :=
  ⟨rfl,
    (parse_direction_invariants
      [("lanes", "2"), ("oneway", "yes"), ("sidewalk", "both"),
        ("cycleway:left", "lane")]
      [⟨.SIDEWALK, .BACKWARD⟩, ⟨.CYCLEWAY, .FORWARD⟩, ⟨.DRIVEWAY, .FORWARD⟩,
        ⟨.DRIVEWAY, .FORWARD⟩, ⟨.SIDEWALK, .FORWARD⟩] rfl).2.2⟩

end Osm2Lanes
